import Mathlib

/-!
# Verification of the `python_crawler` lesson scripts

Shallow embedding of the parts of the repository that the specification's
claims are about:

* `src/lesson8/main.py` — the tkinter exchange-rate desktop app
  (`ExchangeRateApp`): busy flag, background fetch, UI reconciliation,
  currency dropdown filtering, TWD conversion.
* `src/lesson8_1/main.py` — the tkinter stock-watchlist desktop app
  (`StockMonitorApp`): busy flag, result queue draining, cache merging,
  watchlist display.
* `src/lesson3/lesson3_4.py` — the console number-guessing game.
* `src/lesson7_1/main.py` — the streamlit dashboard's conversion arithmetic.

Python dictionaries are modelled as association lists / structures with
`Option String` fields (a missing key is `none`); `dict.get(k, d)` becomes
`(field).getD d`.  Python exceptions are modelled with explicit error
constructors.  `datetime.now()` is passed in as an explicit parameter.
Tkinter side effects (message boxes, spawning worker threads, rescheduling
the poll) are modelled as an explicit list of emitted `Effect`s.
-/

/-- The ASCII whitespace characters that Python `str.strip()` removes
(the scraped rate strings contain no exotic unicode whitespace). -/
def isPySpace (c : Char) : Bool :=
  c = ' ' ∨ c = '\t' ∨ c = '\n' ∨ c = '\r' ∨ c = '\x0b' ∨ c = '\x0c'

/-- Python `str.strip()`: remove leading and trailing whitespace. -/
def pstrip (s : String) : String :=
  ⟨((s.data.dropWhile isPySpace).reverse.dropWhile isPySpace).reverse⟩

/-- UI side effects emitted by the handlers (message boxes shown via
`tkinter.messagebox`, worker threads spawned via `threading.Thread(...).start()`,
and the 100 ms re-poll scheduled via `root.after`). -/
inductive Effect where
  | showInfo (msg : String)
  | showWarning (msg : String)
  | showError (msg : String)
  | spawnWorker
  | reschedulePoll
  deriving DecidableEq, Repr

/-- One scraped exchange-rate record (lesson8): a Python dict with keys
`幣別` (currency), `本行即期買入` (spot buy), `本行即期賣出` (spot sell).
A missing key is `none`. -/
structure Rate where
  currency : Option String
  buy : Option String
  sell : Option String
  deriving DecidableEq, Repr

/-- The currency-code extraction of `fetch_exchange_rates`
(src/lesson8/main.py lines 102-105): from `美金 (USD)` extract `USD`;
`"(" in s` / `")" in s` guard, then `s.split("(")[1].split(")")[0]`. -/
def extractCode (c : String) : String :=
  if c.contains '(' ∧ c.contains ')' then
    (((c.splitOn "(").getD 1 "").splitOn ")").getD 0 ""
  else c

/-- The cleaning loop of `fetch_exchange_rates` (src/lesson8/main.py
lines 89-112): strip each field, skip rows whose buy and sell are both
`-`, extract the currency code, and keep the row only when code, buy and
sell are all truthy and the rates are not `-`. -/
def clean_rates (rates : List Rate) : List Rate :=
  rates.foldr
    (fun r acc =>
      let cf := pstrip (r.currency.getD "")
      let b := pstrip (r.buy.getD "")
      let sl := pstrip (r.sell.getD "")
      if b = "-" ∧ sl = "-" then acc
      else
        let code := extractCode cf
        if code ≠ "" ∧ b ≠ "" ∧ sl ≠ "" ∧ b ≠ "-" ∧ sl ≠ "-" then
          { currency := some code, buy := some b, sell := some sl } :: acc
        else acc)
    []

/-- Embedding of `return cleaned_rates if cleaned_rates else None`
(src/lesson8/main.py line 115): an empty cleaned list is returned as
`None`, i.e. classified as a fetch failure rather than zero records. -/
def fetch_result (rates : List Rate) : Option (List Rate) :=
  let c := clean_rates rates
  if c.isEmpty then none else some c

/-- The UI-visible state of `ExchangeRateApp` (src/lesson8/main.py):
the cached data, last-update timestamp, busy flag, the Treeview rows,
the currency combo box, the labels, and the conversion result label
(modelled as the pair of two-decimal rounded amounts it displays). -/
structure ExApp where
  exchange_data : Option (List Rate)
  last_update : Option Nat
  is_loading : Bool
  tree : List (String × String × String)
  currency_combo_values : List String
  currency_combo_current : Option String
  time_label : String
  status_label : String
  update_btn_enabled : Bool
  conversion_result : Option (ℚ × ℚ)
  deriving DecidableEq, Repr

/-- The state of `ExchangeRateApp.__init__` right after the field
initialisation (src/lesson8/main.py lines 152-155), before
`_load_initial_data` issues the first refresh. -/
def initExApp : ExApp :=
  { exchange_data := none
    last_update := none
    is_loading := false
    tree := []
    currency_combo_values := []
    currency_combo_current := none
    time_label := "最後更新: -"
    status_label := ""
    update_btn_enabled := true
    conversion_result := none }

/-- Embedding of `ExchangeRateApp._show_loading` (lines 402-406). -/
def show_loading (s : ExApp) : ExApp :=
  { s with status_label := "⏳ 載入中...", update_btn_enabled := false }

/-- Embedding of `ExchangeRateApp._hide_loading` (lines 408-412). -/
def hide_loading (s : ExApp) : ExApp :=
  { s with status_label := "", update_btn_enabled := true }

/-- Embedding of `ExchangeRateApp._show_error` (lines 414-418): hide the loading state,
clear the busy flag and pop an error dialog.  Cached data, tree and
timestamp are untouched. -/
def show_error (s : ExApp) (msg : String) : ExApp × List Effect :=
  let s1 := hide_loading s
  ({ s1 with is_loading := false }, [Effect.showError msg])

/-- One Treeview row inserted by `_update_treeview` (lines 467-473):
`rate.get("幣別", "")`, `rate.get("本行即期買入", "暫停交易")`,
`rate.get("本行即期賣出", "暫停交易")`. -/
def treeRow (r : Rate) : String × String × String :=
  (r.currency.getD "", r.buy.getD "暫停交易", r.sell.getD "暫停交易")

/-- Embedding of `ExchangeRateApp._update_treeview` (lines 460-473): clear all rows,
then (when `self.exchange_data` is truthy) insert one row per record in
list order.  A `None` or empty list leaves the cleared (empty) table,
which coincides with mapping over the empty list. -/
def update_treeview (s : ExApp) : ExApp :=
  let rows := match s.exchange_data with
    | some d => d.map treeRow
    | none => []
  { s with tree := rows }

/-- The filtering loop of `_update_currency_combo` (lines 483-493):
keep `currency` when the stripped currency, buy and sell are all
non-empty. -/
def comboFilter (d : List Rate) : List String :=
  d.filterMap fun r =>
    let c := pstrip (r.currency.getD "")
    let b := pstrip (r.buy.getD "")
    let sl := pstrip (r.sell.getD "")
    if c ≠ "" ∧ b ≠ "" ∧ sl ≠ "" then some c else none

/-- Embedding of `ExchangeRateApp._update_currency_combo` (lines 475-497): recompute
the combo's value list; select the first entry when the list is
non-empty (otherwise the selection is left as it was). -/
def update_currency_combo (s : ExApp) : ExApp :=
  let avail := match s.exchange_data with
    | some d => comboFilter d
    | none => []
  { s with
      currency_combo_values := avail
      currency_combo_current := if avail.isEmpty then s.currency_combo_current else avail.head? }

/-- Embedding of `ExchangeRateApp._update_ui_with_data` (lines 420-458): hide loading;
a `None` or empty payload clears the busy flag, pops an error dialog and
returns without touching the cached data or the table; otherwise store
the data and timestamp, rebuild the table and combo, stamp the time
label, show the success status and clear the busy flag.
`now` stands for `datetime.now()`. -/
def update_ui_with_data (s : ExApp) (data : Option (List Rate)) (now : Nat) :
    ExApp × List Effect :=
  let s1 := hide_loading s
  match data with
  | none => ({ s1 with is_loading := false },
             [Effect.showError "無法取得匯率資料，請稍後重試"])
  | some d =>
    if d.isEmpty then
      ({ s1 with is_loading := false },
       [Effect.showError "無法取得匯率資料，請稍後重試"])
    else
      let s2 := { s1 with exchange_data := some d, last_update := some now }
      let s3 := update_treeview s2
      let s4 := update_currency_combo s3
      ({ s4 with
          time_label := "最後更新: " ++ toString now
          status_label := "✅ 更新成功"
          is_loading := false }, [])

/-- Embedding of `ExchangeRateApp._fetch_data_thread` (lines 364-400): when the busy
flag is set, pop an info dialog and return with the state unchanged (no
worker spawned); otherwise set the busy flag, show the loading state and
spawn the worker thread. -/
def fetch_data_thread (s : ExApp) : ExApp × List Effect :=
  if s.is_loading then (s, [Effect.showInfo "正在載入中，請稍候..."])
  else (show_loading { s with is_loading := true }, [Effect.spawnWorker])

/-- The callback that `run_async` (src/lesson8/main.py lines 381-396)
schedules onto the UI thread with `self.after(0, ...)`: either
`_update_ui_with_data(data)` or `_show_error(...)`. -/
inductive Scheduled where
  | updateUI (data : Option (List Rate))
  | showErr (msg : String)
  deriving DecidableEq, Repr

/-- The worker body `run_async` (lines 381-396), parameterised by the
outcome of `loop.run_until_complete(fetch_exchange_rates())`: on a normal
return the UI-update callback is scheduled, on a raised fault the
error callback is scheduled; on both paths the `finally` block closes the
loop and clears `self.is_loading`. -/
def run_async (s : ExApp) (r : Except String (Option (List Rate))) :
    ExApp × Scheduled :=
  match r with
  | .ok data => ({ s with is_loading := false }, Scheduled.updateUI data)
  | .error e => ({ s with is_loading := false },
                 Scheduled.showErr ("爬蟲失敗: " ++ e))

/-- Running a scheduled callback on the UI thread. -/
def applySched (s : ExApp) (c : Scheduled) (now : Nat) : ExApp × List Effect :=
  match c with
  | .updateUI data => update_ui_with_data s data now
  | .showErr msg => show_error s msg

/-- External events of the exchange-rate app: a refresh request
(button press or startup), or the in-flight worker finishing with the
fetch outcome (`.ok data` for a normal return, `.error e` for a raised
fault). -/
inductive FetchEv where
  | refresh
  | finished (r : Except String (Option (List Rate))) (now : Nat)

/-- The app state together with the number of live worker threads. -/
structure ExSys where
  app : ExApp
  inFlight : Nat

/-- One step of the whole system: a refresh request runs
`_fetch_data_thread` (spawning a worker only when the busy flag was
clear); a finish event (possible only when a worker is live) runs the
worker body and then its scheduled UI callback. -/
def exStep (s : ExSys) (e : FetchEv) : ExSys :=
  match e with
  | .refresh =>
    let (a, effs) := fetch_data_thread s.app
    { app := a
      inFlight := s.inFlight + (if Effect.spawnWorker ∈ effs then 1 else 0) }
  | .finished r now =>
    if s.inFlight = 0 then s
    else
      let (a1, sched) := run_async s.app r
      { app := (applySched a1 sched now).1, inFlight := s.inFlight - 1 }

/-- Fold a list of events from a starting system state. -/
def runEvents (s : ExSys) (evs : List FetchEv) : ExSys :=
  evs.foldl exStep s

/-- The initial system: the freshly initialised app, no worker live. -/
def initExSys : ExSys := { app := initExApp, inFlight := 0 }

/-- The mutual-exclusion invariant: at most one worker is live, and a
live worker implies the busy flag is set. -/
def exInv (s : ExSys) : Prop :=
  s.inFlight ≤ 1 ∧ (s.inFlight = 1 → s.app.is_loading = true)

/-- Python `int(s)` on a line of input: strip whitespace, optional sign,
decimal digits; anything else raises `ValueError` (`none`). -/
def parseDigits (cs : List Char) : Option Nat :=
  if cs.isEmpty then none
  else cs.foldl
    (fun acc c => acc.bind fun n =>
      if c.isDigit then some (n * 10 + (c.toNat - 48)) else none)
    (some 0)

/-- Python `int(str)` (raises `ValueError` → `none`). -/
def pyInt (s : String) : Option Int :=
  match (pstrip s).toList with
  | [] => none
  | '+' :: rest => (parseDigits rest).map fun n => (n : Int)
  | '-' :: rest => (parseDigits rest).map fun n => -(n : Int)
  | cs => (parseDigits cs).map fun n => (n : Int)

/-- Python `float(str)` on the plain decimal notation used by the rate
strings: optional sign, digits, optional fractional part.  The result is
modelled as an exact rational; anything unparsable raises `ValueError`
(`none`). -/
def pyFloatBody (cs : List Char) : Option ℚ :=
  let intPart := cs.takeWhile fun c => c ≠ '.'
  match cs.dropWhile (fun c => c ≠ '.') with
  | [] => (parseDigits intPart).map fun n => (n : ℚ)
  | _ :: frac =>
    if intPart.isEmpty ∧ frac.isEmpty then none
    else if frac.contains '.' then none
    else
      let ip : Option ℚ :=
        if intPart.isEmpty then some 0
        else (parseDigits intPart).map fun n => (n : ℚ)
      let fp : Option ℚ :=
        if frac.isEmpty then some 0
        else (parseDigits frac).map fun n => (n : ℚ) / ((10 : ℚ) ^ frac.length)
      match ip, fp with
      | some a, some b => some (a + b)
      | _, _ => none

/-- Python `float(str)` with sign and whitespace stripping. -/
def pyFloat (s : String) : Option ℚ :=
  match (pstrip s).toList with
  | [] => none
  | '+' :: rest => pyFloatBody rest
  | '-' :: rest => (pyFloatBody rest).map fun q => -q
  | cs => pyFloatBody cs

/-- Rounding to two decimals, as Python's `f"{x:.2f}"` renders the
values appearing in this repository (no representable-tie cases arise at
the inputs the claims mention, so round-half-up on exact rationals
agrees with the float formatting). -/
def round2 (q : ℚ) : ℚ := (⌊q * 100 + 1 / 2⌋ : ℚ) / 100

/-- The conversion arithmetic of the streamlit dashboard
(src/lesson7_1/main.py line 213): `converted_amount = twd_amount /
float(sell_rate)`. -/
def converted_amount (twd_amount sell_rate : ℚ) : ℚ := twd_amount / sell_rate

/-- Embedding of `ExchangeRateApp._find_rate_by_currency` (lines 499-516):
linear search for `rate.get("幣別") == currency`. -/
def find_rate_by_currency (s : ExApp) (currency : String) : Option Rate :=
  match s.exchange_data with
  | none => none
  | some d => d.find? fun r => r.currency == some currency

/-- Embedding of `ExchangeRateApp._calculate_conversion` (lines 518-583), inside its
`try`: validate the amount (empty → warning; `float` failure →
`ValueError` caught as the「有效的金額」error; non-positive → warning),
validate the selection, look up the rate, convert with both the buy and
the sell rate and display the two results rounded to two decimals.
A missing rate key (`KeyError` from `rate_data[...]`), an unparsable
rate string (`ValueError` from `float`), or a zero rate
(`ZeroDivisionError`) is caught by the `except` clauses and shown as an
error dialog, leaving the state unchanged. -/
def calculate_conversion (s : ExApp) (amountStr selCurrency : String) :
    ExApp × List Effect :=
  let a := pstrip amountStr
  if a = "" then (s, [Effect.showWarning "請輸入台幣金額"])
  else
    match pyFloat a with
    | none => (s, [Effect.showError "請輸入有效的金額（數字）"])
    | some amt =>
      if amt ≤ 0 then (s, [Effect.showWarning "金額必須大於 0"])
      else if selCurrency = "" then (s, [Effect.showWarning "請選擇目標貨幣"])
      else
        match find_rate_by_currency s selCurrency with
        | none => (s, [Effect.showError ("無法找到 " ++ selCurrency ++ " 的匯率")])
        | some rd =>
          match rd.buy, rd.sell with
          | some bs, some ss =>
            match pyFloat bs, pyFloat ss with
            | some br, some sr =>
              if br = 0 ∨ sr = 0 then
                (s, [Effect.showError "計算失敗: division by zero"])
              else
                let buy_result := converted_amount amt br
                let sell_result := converted_amount amt sr
                let shown := (round2 buy_result, round2 sell_result)
                ({ s with conversion_result := some shown }, [])
            | _, _ => (s, [Effect.showError "請輸入有效的金額（數字）"])
          | _, _ => (s, [Effect.showError "計算失敗: KeyError"])

/-- One scraped stock record (lesson8_1): the whole Python dict as an
association list (keys `股票名稱`, `即時價格`, …, plus the injected
`stock_code` and `update_time`). -/
def StockData := List (String × String)
deriving DecidableEq, Repr

/-- Python `d[k] = v` on an insertion-ordered dict: overwrite in place
when the key exists, append otherwise. -/
def dictSet (d : List (String × String)) (k v : String) :
    List (String × String) :=
  if (d.lookup k).isSome then
    d.map fun p => if p.1 = k then (k, v) else p
  else d ++ [(k, v)]

/-- The cache `d[code] = stock_data` update, on an association list from
codes to records. -/
def cacheSet (c : List (String × StockData)) (k : String) (v : StockData) :
    List (String × StockData) :=
  if (c.lookup k).isSome then
    c.map fun p => if p.1 = k then (k, v) else p
  else c ++ [(k, v)]

/-- An outcome placed on the result queue by the worker
(src/lesson8_1/main.py lines 210 and 214): `('success', results)` or
`('error', str(e))`. -/
inductive Outcome where
  | success (results : List StockData)
  | error (msg : String)
  deriving DecidableEq, Repr

/-- What the right panel of the stock app shows: the explicit empty-state
label, or one card per watched stock (its code paired with its cached
data, `none` while no data has arrived). -/
inductive Display where
  | emptyState
  | cards (cs : List (String × Option StockData))
  deriving DecidableEq, Repr

/-- Insertion sort on strings by `compare`, modelling Python
`sorted(self.watchlist)`. -/
def insertSorted (x : String) : List String → List String
  | [] => [x]
  | y :: ys =>
    if compare x y ≠ Ordering.gt then x :: y :: ys else y :: insertSorted x ys

/-- Python `sorted(...)` on a list of strings. -/
def sortStrings (l : List String) : List String := l.foldr insertSorted []

/-- The UI-visible state of `StockMonitorApp` (src/lesson8_1/main.py):
the watchlist (a Python `set`, modelled as a duplicate-free list), the
per-code data cache, the busy flag, the FIFO result queue, the labels
and the right-panel display. -/
structure StockApp where
  watchlist : List String
  stock_data_cache : List (String × StockData)
  is_updating : Bool
  result_queue : List Outcome
  status_label : String
  last_update_label : String
  update_btn_enabled : Bool
  display : Display
  deriving DecidableEq, Repr

/-- Embedding of `StockMonitorApp.__init__` (lines 222-257): empty watchlist, empty
cache, busy flag clear, empty queue, and the explicit
「尚未加入任何股票」 empty-state label packed by `setup_right_panel`. -/
def initStockApp : StockApp :=
  { watchlist := []
    stock_data_cache := []
    is_updating := false
    result_queue := []
    status_label := "就緒"
    last_update_label := ""
    update_btn_enabled := true
    display := Display.emptyState }

/-- Embedding of `StockMonitorApp.update_watchlist_display` (lines 526-545): clear the
panel; an empty watchlist shows the explicit empty-state label, otherwise
one card per stock of `sorted(self.watchlist)`, each built from the cache
(`create_stock_card`, which shows the waiting card when the cache has no
entry). -/
def update_watchlist_display (s : StockApp) : StockApp :=
  if s.watchlist.isEmpty then { s with display := Display.emptyState }
  else
    let cs := (sortStrings s.watchlist).map fun c => (c, s.stock_data_cache.lookup c)
    { s with display := Display.cards cs }

/-- The cache-merging loop of `on_update_complete` (lines 754-758):
for each result, `stock_code = stock_data.get('stock_code')`;
a missing or empty code (falsy) is skipped, otherwise
`self.stock_data_cache[stock_code] = stock_data`. -/
def cacheInsert (c : List (String × StockData)) (results : List StockData) :
    List (String × StockData) :=
  results.foldl
    (fun acc d =>
      let code := (List.lookup "stock_code" d).getD ""
      if code ≠ "" then cacheSet acc code d else acc)
    c

/-- Embedding of `StockMonitorApp.on_update_complete` (lines 752-770): merge the
results into the cache, rebuild the display, clear the busy flag,
re-enable the button and stamp the last-update label.
`now` stands for `datetime.now().strftime(...)`. -/
def on_update_complete (s : StockApp) (results : List StockData)
    (now : String) : StockApp × List Effect :=
  let s1 := { s with stock_data_cache := cacheInsert s.stock_data_cache results }
  let s2 := update_watchlist_display s1
  ({ s2 with
      is_updating := false
      update_btn_enabled := true
      status_label := "✓ 更新完成"
      last_update_label := "最後更新: " ++ now }, [])

/-- Embedding of `StockMonitorApp.on_update_error` (lines 772-777): clear the busy
flag, re-enable the button, set the failure status and pop an error
dialog.  Cache, display and last-update label are untouched. -/
def on_update_error (s : StockApp) (msg : String) : StockApp × List Effect :=
  ({ s with
      is_updating := false
      update_btn_enabled := true
      status_label := "✗ 更新失敗" },
   [Effect.showError ("更新股票資料時發生錯誤:\n" ++ msg)])

/-- Dispatch of one dequeued outcome inside `check_queue`
(lines 741-744). -/
def processOutcome (now : String) (s : StockApp) (o : Outcome) :
    StockApp × List Effect :=
  match o with
  | .success results => on_update_complete s results now
  | .error m => on_update_error s m

/-- The `while True: ... get_nowait()` drain loop of `check_queue`: the
queue has already been captured, outcomes are processed head first. -/
def drainList (now : String) (s : StockApp) : List Outcome →
    StockApp × List Effect
  | [] => (s, [])
  | o :: rest =>
    let (s1, e1) := processOutcome now s o
    let (s2, e2) := drainList now s1 rest
    (s2, e1 ++ e2)

/-- Embedding of `StockMonitorApp.check_queue` (lines 735-750): dequeue and process
every queued outcome in FIFO order until `queue.Empty`, then reschedule
itself in 100 ms. -/
def check_queue (now : String) (s : StockApp) : StockApp × List Effect :=
  let (s1, effs) := drainList now { s with result_queue := [] } s.result_queue
  (s1, effs ++ [Effect.reschedulePoll])

/-- Embedding of `StockMonitorApp.start_update` (lines 720-733): set the busy flag,
disable the button, show the progress status and spawn the worker
thread. -/
def start_update (s : StockApp) : StockApp × List Effect :=
  ({ s with
      is_updating := true
      update_btn_enabled := false
      status_label := "🔄 更新中... (0/" ++ toString s.watchlist.length ++ ")" },
   [Effect.spawnWorker])

/-- Embedding of `StockMonitorApp.manual_update` (lines 707-718): an empty watchlist
or a set busy flag pops an info dialog and returns with the state
unchanged (no worker spawned); otherwise `start_update` runs. -/
def manual_update (s : StockApp) : StockApp × List Effect :=
  if s.watchlist.isEmpty then
    (s, [Effect.showInfo "觀察清單為空，請先加入股票"])
  else if s.is_updating then
    (s, [Effect.showInfo "正在更新中，請稍候..."])
  else start_update s

/-- Embedding of `run_crawler_in_thread` (src/lesson8_1/main.py lines 196-214),
parameterised by the outcome of
`loop.run_until_complete(fetch_multiple_stocks(...))`: a normal return
enqueues `('success', results)`, a raised fault enqueues
`('error', str(e))` — every execution path enqueues exactly one
outcome. -/
def run_crawler_in_thread (r : Except String (List StockData)) : Outcome :=
  match r with
  | .ok results => Outcome.success results
  | .error e => Outcome.error e

/-- The loop state of `play_game` (src/lesson3/lesson3_4.py lines 4-32):
current prompt bounds, the secret target and the guess counter.
The field names follow the source's local variables. -/
structure GameState where
  min : Int
  max : Int
  target : Int
  count : Nat
  deriving DecidableEq, Repr

/-- The result of one iteration of the guess loop. -/
inductive StepResult where
  | crashed
  | win (count : Nat)
  | narrowed (st : GameState)
  | outOfRange (st : GameState)
  deriving DecidableEq, Repr

/-- The body of the guess loop after `int()` succeeded
(src/lesson3/lesson3_4.py lines 13-32): `count += 1`; an in-range guess
either wins, or narrows `max` to `keyin - 1` (too high,「小一點」) or
`min` to `keyin + 1` (too low,「大一點」); an out-of-range guess prints
the inline「輸入提示範圍內的數字」message and the loop continues. -/
def handle_guess (st : GameState) (keyin : Int) : StepResult :=
  let st1 := { st with count := st.count + 1 }
  if st1.min ≤ keyin ∧ keyin ≤ st1.max then
    if keyin = st1.target then StepResult.win st1.count
    else if keyin > st1.target then
      StepResult.narrowed { st1 with max := keyin - 1 }
    else StepResult.narrowed { st1 with min := keyin + 1 }
  else StepResult.outOfRange st1

/-- One full iteration: `keyin = int(input(...))` followed by the loop
body.  `int()` on a non-numeric line raises `ValueError`, which no
handler in `play_game` or `main` catches — the exception propagates and
the process dies (`StepResult.crashed`). -/
def game_step (st : GameState) (input : String) : StepResult :=
  match pyInt input with
  | none => StepResult.crashed
  | some keyin => handle_guess st keyin

/-! ## Theorems for the specification's claims -/

/-- C9: converting a TWD amount at a sell rate divides the amount by the
rate and rounds the result to two decimals; in particular 1000 units at
sell-rate 30.5 yield 32.79.  First conjunct: the dashboard arithmetic
(`converted_amount`, rendered with two decimals).  Second conjunct: the
GUI calculator `_calculate_conversion` on a state holding the record
`USD / 30.1 / 30.5` of the spec's example scenario displays
(33.22, 32.79), whose sell component is 32.79. -/
theorem conversion_rounds_two_decimals :
    round2 (converted_amount 1000 (61 / 2)) = 3279 / 100 ∧
    (calculate_conversion
        { initExApp with
            exchange_data := some [⟨some "USD", some "30.1", some "30.5"⟩] }
        "1000" "USD").1.conversion_result = some (1661 / 50, 3279 / 100) := by
  constructor
  · norm_num [round2, converted_amount]
  · have hA : pstrip "1000" = "1000" := by decide
    have h1 : pyFloat "1000" = some (1000 : ℚ) := by
      simp [pyFloat, pstrip, isPySpace, pyFloatBody, parseDigits]
    have h2 : pyFloat "30.1" = some (301 / 10 : ℚ) := by
      simp [pyFloat, pstrip, isPySpace, pyFloatBody, parseDigits]; norm_num
    have h3 : pyFloat "30.5" = some (61 / 2 : ℚ) := by
      simp [pyFloat, pstrip, isPySpace, pyFloatBody, parseDigits]; norm_num
    have h4 : find_rate_by_currency
        { initExApp with
            exchange_data := some [⟨some "USD", some "30.1", some "30.5"⟩] }
        "USD" = some ⟨some "USD", some "30.1", some "30.5"⟩ := by
      simp [find_rate_by_currency, List.find?]
    simp only [calculate_conversion, hA, h1, h4, h2, h3]
    norm_num [converted_amount, round2]
    rw [if_neg (by decide : ¬("1000" = "")), if_neg (by decide : ¬("USD" = ""))]

/-- C10: after every in-range wrong guess, the loop narrows the bounds
(`max := guess - 1` when too high, `min := guess + 1` when too low), the
target stays inside the inclusive `[min, max]` range, and the interval
strictly shrinks. -/
theorem wrong_guess_narrows (st : GameState) (g : Int)
    (h1 : st.min ≤ g) (h2 : g ≤ st.max) (h3 : g ≠ st.target)
    (h4 : st.min ≤ st.target) (h5 : st.target ≤ st.max) :
    ∃ st2, handle_guess st g = StepResult.narrowed st2 ∧
      st2.min ≤ st.target ∧ st.target ≤ st2.max ∧
      st2.max - st2.min < st.max - st.min := by
  rcases lt_or_gt_of_ne h3 with hlt | hgt
  · refine ⟨{ st with count := st.count + 1, min := g + 1 }, ?_,
      show g + 1 ≤ st.target by omega, h5,
      show st.max - (g + 1) < st.max - st.min by omega⟩
    simp only [handle_guess]
    rw [if_pos ⟨h1, h2⟩, if_neg h3, if_neg (by omega : ¬ g > st.target)]
  · refine ⟨{ st with count := st.count + 1, max := g - 1 }, ?_, h4,
      show st.target ≤ g - 1 by omega,
      show g - 1 - st.min < st.max - st.min by omega⟩
    simp only [handle_guess]
    rw [if_pos ⟨h1, h2⟩, if_neg h3, if_pos hgt]

/-- Witness for `wrong_guess_narrows`: the state `min = 1, max = 100,
target = 50` with the in-range wrong guess 70. -/
theorem wrong_guess_narrows_witness :
    ∃ st2, handle_guess ⟨1, 100, 50, 0⟩ 70 = StepResult.narrowed st2 ∧
      st2.min ≤ (50 : Int) ∧ (50 : Int) ≤ st2.max ∧
      st2.max - st2.min < 99 :=
  wrong_guess_narrows ⟨1, 100, 50, 0⟩ 70 (by decide) (by decide) (by decide)
    (by decide) (by decide)

/-- C7 counterexample: the console game reads a guess with
`int(input(...))` and no handler for `ValueError`; the non-numeric line
`"abc"` at the initial prompt state makes the iteration end in the
uncaught-exception outcome, contradicting the claim that invalid input
is never propagated as an uncaught exception. -/
theorem nonnumeric_guess_crashes :
    game_step ⟨1, 100, 50, 0⟩ "abc" = StepResult.crashed := by decide

/-- C7 amended: an out-of-range guess in the console game is reported
inline (the loop continues, no exception), and a non-numeric amount in
the GUI converter is caught as `ValueError` and shown as an error dialog
with the state unchanged — but a non-numeric line in the console game is
not covered (see `nonnumeric_guess_crashes`). -/
theorem invalid_input_reported_inline (st : GameState) (g : Int)
    (hout : ¬ (st.min ≤ g ∧ g ≤ st.max))
    (s : ExApp) (amountStr cur : String)
    (hne : pstrip amountStr ≠ "") (hbad : pyFloat (pstrip amountStr) = none) :
    handle_guess st g = StepResult.outOfRange { st with count := st.count + 1 } ∧
    calculate_conversion s amountStr cur =
      (s, [Effect.showError "請輸入有效的金額（數字）"]) := by
  constructor
  · simp only [handle_guess]
    rw [if_neg]
    exact fun h => hout ⟨h.1, h.2⟩
  · simp only [calculate_conversion]
    rw [if_neg hne, hbad]

/-- Witness for `invalid_input_reported_inline`: the out-of-range guess
200 against the range 1..100, and the non-numeric GUI amount `"xyz"`. -/
theorem invalid_input_reported_inline_witness :
    handle_guess ⟨1, 100, 50, 0⟩ 200 = StepResult.outOfRange ⟨1, 100, 50, 1⟩ ∧
    calculate_conversion initExApp "xyz" "USD" =
      (initExApp, [Effect.showError "請輸入有效的金額（數字）"]) :=
  invalid_input_reported_inline ⟨1, 100, 50, 0⟩ 200 (by decide) initExApp
    "xyz" "USD" (by decide) (by decide)

/-- Processing one outcome never touches the result queue: the handlers
`on_update_complete` and `on_update_error` only mutate cache, display,
flags and labels. -/
lemma processOutcome_queue (now : String) (s : StockApp) (o : Outcome) :
    (processOutcome now s o).1.result_queue = s.result_queue := by
  cases o with
  | success results =>
    simp only [processOutcome, on_update_complete, update_watchlist_display]
    split <;> rfl
  | error m => rfl

/-- The drain loop is the left fold of outcome processing over the
captured queue: the head of the queue (first enqueued) is processed
first, and every element is processed. -/
lemma drainList_fst (now : String) (q : List Outcome) (s : StockApp) :
    (drainList now s q).1 =
      q.foldl (fun a o => (processOutcome now a o).1) s := by
  induction q generalizing s with
  | nil => rfl
  | cons o rest ih => simp [drainList, ih]

/-- Folding outcome processing leaves the result queue unchanged. -/
lemma foldl_preserves_queue (now : String) (q : List Outcome) (s : StockApp) :
    (q.foldl (fun a o => (processOutcome now a o).1) s).result_queue =
      s.result_queue := by
  induction q generalizing s with
  | nil => rfl
  | cons o rest ih => rw [List.foldl_cons, ih, processOutcome_queue]

/-- C4: one poll of `check_queue` dequeues and processes every queued
outcome, in first-in-first-out arrival order — the resulting state is
exactly the left fold of `processOutcome` over the queued outcomes in
arrival order — and afterwards the queue is empty (nothing is dropped,
nothing is left behind or re-processed). -/
theorem check_queue_drains_fifo (now : String) (s : StockApp) :
    (check_queue now s).1 =
      s.result_queue.foldl (fun a o => (processOutcome now a o).1)
        { s with result_queue := [] } ∧
    (check_queue now s).1.result_queue = [] := by
  constructor
  · simp [check_queue, drainList_fst]
  · simp [check_queue, drainList_fst, foldl_preserves_queue]

/-- C3: applying an error outcome leaves the cached data, its visible
rendering and the last-update timestamp unchanged in both apps, while an
error dialog is shown; and the stock app's initial display is the
explicit empty-state label (never a silently empty table).  Covers
`_show_error` of the exchange-rate app and `on_update_error` of the
stock app. -/
theorem error_outcome_preserves_cache (s : ExApp) (m : String)
    (t : StockApp) (m2 : String) :
    (show_error s m).1.exchange_data = s.exchange_data ∧
    (show_error s m).1.tree = s.tree ∧
    (show_error s m).1.last_update = s.last_update ∧
    (show_error s m).1.time_label = s.time_label ∧
    Effect.showError m ∈ (show_error s m).2 ∧
    (on_update_error t m2).1.stock_data_cache = t.stock_data_cache ∧
    (on_update_error t m2).1.display = t.display ∧
    (on_update_error t m2).1.last_update_label = t.last_update_label ∧
    Effect.showError ("更新股票資料時發生錯誤:\n" ++ m2) ∈ (on_update_error t m2).2 ∧
    initStockApp.display = Display.emptyState := by
  simp [show_error, hide_loading, on_update_error, initStockApp]

/-- C2: an empty or null payload is classified as fetch failure, not as
zero records: the fetcher turns an empty cleaned list into `None`
(`fetch_result`), and the reconciler `_update_ui_with_data`, given `None`
or an empty list, shows an error dialog and returns without replacing or
clearing the displayed collection, the cached data or the timestamp. -/
theorem empty_or_null_result_is_failure (raw : List Rate)
    (hraw : clean_rates raw = []) (s : ExApp)
    (data : Option (List Rate)) (hdata : data = none ∨ data = some [])
    (now : Nat) :
    fetch_result raw = none ∧
    (update_ui_with_data s data now).1.exchange_data = s.exchange_data ∧
    (update_ui_with_data s data now).1.tree = s.tree ∧
    (update_ui_with_data s data now).1.last_update = s.last_update ∧
    Effect.showError "無法取得匯率資料，請稍後重試" ∈
      (update_ui_with_data s data now).2 := by
  refine ⟨by simp [fetch_result, hraw], ?_, ?_, ?_, ?_⟩ <;>
    rcases hdata with h | h <;> subst h <;>
      simp [update_ui_with_data, hide_loading]

/-- Witness for `empty_or_null_result_is_failure`: the empty raw scrape
and the `None` payload against the freshly initialised app. -/
theorem empty_or_null_result_is_failure_witness :
    fetch_result [] = none ∧
    (update_ui_with_data initExApp none 0).1.exchange_data = none ∧
    (update_ui_with_data initExApp none 0).1.tree = [] ∧
    (update_ui_with_data initExApp none 0).1.last_update = none ∧
    Effect.showError "無法取得匯率資料，請稍後重試" ∈
      (update_ui_with_data initExApp none 0).2 :=
  empty_or_null_result_is_failure [] (by decide) initExApp none (Or.inl rfl) 0

/-- The combo filtering loop equals "filter by the business rule, then
take the (stripped) currency code", whenever every record carries a
non-blank currency code. -/
lemma comboFilter_eq_filter_map (d : List Rate)
    (hc : ∀ r ∈ d, pstrip (r.currency.getD "") ≠ "") :
    comboFilter d =
      (d.filter fun r => decide (pstrip (r.buy.getD "") ≠ "") &&
          decide (pstrip (r.sell.getD "") ≠ "")).map
        (fun r => pstrip (r.currency.getD "")) := by
  induction d with
  | nil => rfl
  | cons r rs ih =>
    have hr : pstrip (r.currency.getD "") ≠ "" := hc r (List.mem_cons_self r rs)
    have ih2 := ih fun x hx => hc x (List.mem_cons_of_mem r hx)
    by_cases hb : pstrip (r.buy.getD "") ≠ "" ∧ pstrip (r.sell.getD "") ≠ ""
    · simp [comboFilter, List.filterMap_cons, List.filter_cons, hr, hb.1, hb.2, ih2,
        comboFilter] at ih2 ⊢
      exact ih2
    · push_neg at hb
      by_cases hb1 : pstrip (r.buy.getD "") = ""
      · simp [comboFilter, List.filterMap_cons, List.filter_cons, hb1, ih2] at ih2 ⊢
        exact ih2
      · have hs1 : pstrip (r.sell.getD "") = "" := hb hb1
        simp [comboFilter, List.filterMap_cons, List.filter_cons, hb1, hs1, ih2] at ih2 ⊢
        exact ih2

/-- C8: after a success outcome is applied, the currency dropdown holds
exactly the records satisfying the eligibility rule "both the buy and the
sell field are present and non-empty (after stripping)": the combo equals
the rule-filtered record list mapped to its currency codes, and a code is
selectable iff some record carries it together with non-empty buy and
sell fields.  Records are assumed to carry a non-blank currency code, as
every record produced by the fetcher's cleaning loop does. -/
theorem dropdown_eligibility (d : List Rate) (hd : d ≠ [])
    (hc : ∀ r ∈ d, pstrip (r.currency.getD "") ≠ "") (s : ExApp) (now : Nat) :
    (update_ui_with_data s (some d) now).1.currency_combo_values = comboFilter d ∧
    comboFilter d =
      (d.filter fun r => decide (pstrip (r.buy.getD "") ≠ "") &&
          decide (pstrip (r.sell.getD "") ≠ "")).map
        (fun r => pstrip (r.currency.getD "")) ∧
    ∀ c, c ∈ comboFilter d ↔
      ∃ r ∈ d, pstrip (r.currency.getD "") = c ∧
        pstrip (r.buy.getD "") ≠ "" ∧ pstrip (r.sell.getD "") ≠ "" := by
  refine ⟨?_, comboFilter_eq_filter_map d hc, ?_⟩
  · have hd2 : d.isEmpty = false := by
      cases d with
      | nil => exact absurd rfl hd
      | cons a l => rfl
    simp [update_ui_with_data, hide_loading, update_treeview,
      update_currency_combo, hd2]
  · intro c
    rw [comboFilter_eq_filter_map d hc]
    simp only [List.mem_map, List.mem_filter, Bool.and_eq_true, decide_eq_true_eq]
    constructor
    · rintro ⟨r, ⟨hrd, hb, hs⟩, hcur⟩
      exact ⟨r, hrd, hcur, hb, hs⟩
    · rintro ⟨r, hrd, hcur, hb, hs⟩
      exact ⟨r, ⟨hrd, hb, hs⟩, hcur⟩

/-- Witness for `dropdown_eligibility`: a two-record payload in which
`USD` has both rates and `XAU` has an empty buy rate — only `USD` becomes
selectable. -/
theorem dropdown_eligibility_witness :
    (update_ui_with_data initExApp
        (some [⟨some "USD", some "30.1", some "30.5"⟩,
               ⟨some "XAU", some "", some "75.5"⟩]) 0).1.currency_combo_values =
      comboFilter [⟨some "USD", some "30.1", some "30.5"⟩,
                   ⟨some "XAU", some "", some "75.5"⟩] ∧
    comboFilter [⟨some "USD", some "30.1", some "30.5"⟩,
                 ⟨some "XAU", some "", some "75.5"⟩] = ["USD"] := by
  have h := dropdown_eligibility
    [⟨some "USD", some "30.1", some "30.5"⟩, ⟨some "XAU", some "", some "75.5"⟩]
    (by decide) (by decide) initExApp 0
  exact ⟨h.1, by decide⟩

/-- C5 counterexample: in the stock app, a success outcome supplying the
records for codes `B` then `A` (with watchlist `{B, A}`) produces a
display whose cards are ordered `A`, `B` — the sorted watchlist order —
and not the supplied order `B`, `A`: the visible collection is not
"exactly those records, shown in the order supplied". -/
theorem stock_success_not_supplied_order :
    (on_update_complete { initStockApp with watchlist := ["B", "A"] }
        [[("stock_code", "B")], [("stock_code", "A")]] "t").1.display =
      Display.cards [("A", some [("stock_code", "A")]),
                     ("B", some [("stock_code", "B")])] ∧
    Display.cards [("A", some [("stock_code", "A")]),
                   ("B", some [("stock_code", "B")])] ≠
      Display.cards [("B", some [("stock_code", "B")]),
                     ("A", some [("stock_code", "A")])] := by decide

/-- C5 amended: in the exchange-rate app, applying a non-empty success
outcome replaces the table with exactly the supplied records in the
supplied order and stamps the update time; in the stock app, the
supplied records are merged into the per-code cache and the display
shows one card per watched stock in sorted-code order built from the
merged cache (not in the supplied order), and the update time is
stamped. -/
theorem success_outcome_display (s : ExApp) (d : List Rate) (hd : d ≠ [])
    (now : Nat) (t : StockApp) (ht : t.watchlist ≠ [])
    (results : List StockData) (nowS : String) :
    (update_ui_with_data s (some d) now).1.tree = d.map treeRow ∧
    (update_ui_with_data s (some d) now).1.exchange_data = some d ∧
    (update_ui_with_data s (some d) now).1.last_update = some now ∧
    (update_ui_with_data s (some d) now).1.time_label = "最後更新: " ++ toString now ∧
    (on_update_complete t results nowS).1.stock_data_cache =
      cacheInsert t.stock_data_cache results ∧
    (on_update_complete t results nowS).1.display =
      Display.cards ((sortStrings t.watchlist).map fun c =>
        (c, (cacheInsert t.stock_data_cache results).lookup c)) ∧
    (on_update_complete t results nowS).1.last_update_label =
      "最後更新: " ++ nowS := by
  have hd2 : d.isEmpty = false := by
    cases d with
    | nil => exact absurd rfl hd
    | cons a l => rfl
  have ht2 : t.watchlist.isEmpty = false := by
    cases h : t.watchlist with
    | nil => exact absurd h ht
    | cons a l => rfl
  refine ⟨?_, ?_, ?_, ?_, ?_, ?_, ?_⟩ <;>
    simp [update_ui_with_data, hide_loading, update_treeview,
      update_currency_combo, hd2, on_update_complete,
      update_watchlist_display, ht2]

/-- Witness for `success_outcome_display`: one USD record for the
exchange-rate app, and one stock record for the code 2330 watched by the
stock app. -/
theorem success_outcome_display_witness :
    (update_ui_with_data initExApp
        (some [⟨some "USD", some "30.1", some "30.5"⟩]) 0).1.tree =
      [("USD", "30.1", "30.5")] ∧
    (on_update_complete { initStockApp with watchlist := ["2330"] }
        [[("stock_code", "2330")]] "t").1.display =
      Display.cards [("2330", some [("stock_code", "2330")])] := by
  have h := success_outcome_display initExApp
    [⟨some "USD", some "30.1", some "30.5"⟩] (by decide) 0
    { initStockApp with watchlist := ["2330"] } (by decide)
    [[("stock_code", "2330")]] "t"
  refine ⟨?_, ?_⟩
  · rw [h.1]; decide
  · rw [h.2.2.2.2.2.1]; decide

/-- C6: the busy indicator is set before the worker is launched and is
cleared after the operation ends on every path.  In the exchange-rate
app: an accepted refresh sets `is_loading` and spawns the worker; the
worker body clears `is_loading` in its `finally` on both the normal and
the fault path; the scheduled UI callback (success, empty result or
error dialog) also ends with `is_loading = false`; and a refresh issued
after the completed run is accepted (a worker is spawned again).  In the
stock app: the worker enqueues exactly one outcome on every path, and
processing either outcome ends with `is_updating = false`. -/
theorem busy_flag_cleared_on_all_paths (s : ExApp)
    (r : Except String (Option (List Rate))) (now : Nat)
    (d : Option (List Rate)) (m : String)
    (u : ExApp) (hu : u.is_loading = false)
    (t : StockApp) (rr : Except String (List StockData)) (nowS : String) :
    (run_async s r).1.is_loading = false ∧
    (applySched (run_async s r).1 (run_async s r).2 now).1.is_loading = false ∧
    (update_ui_with_data s d now).1.is_loading = false ∧
    (show_error s m).1.is_loading = false ∧
    (fetch_data_thread u).1.is_loading = true ∧
    Effect.spawnWorker ∈ (fetch_data_thread u).2 ∧
    Effect.spawnWorker ∈
      (fetch_data_thread
        (applySched (run_async s r).1 (run_async s r).2 now).1).2 ∧
    (processOutcome nowS t (run_crawler_in_thread rr)).1.is_updating = false := by
  have hupd : ∀ (w : ExApp) (dd : Option (List Rate)),
      (update_ui_with_data w dd now).1.is_loading = false := by
    intro w dd
    cases dd with
    | none => rfl
    | some l =>
      by_cases hl : l.isEmpty = true
      · simp [update_ui_with_data, hide_loading, hl]
      · simp [update_ui_with_data, hide_loading, update_treeview,
          update_currency_combo, hl]
  have hsched : ∀ (w : ExApp) (c : Scheduled),
      (applySched w c now).1.is_loading = false := by
    intro w c
    cases c with
    | updateUI dd => exact hupd w dd
    | showErr mm => rfl
  have hrun : (run_async s r).1.is_loading = false := by
    cases r <;> rfl
  have hproc :
      (processOutcome nowS t (run_crawler_in_thread rr)).1.is_updating = false := by
    cases rr with
    | ok results =>
      simp only [run_crawler_in_thread, processOutcome, on_update_complete,
        update_watchlist_display]
    | error e => rfl
  have hfetch : (fetch_data_thread u).1.is_loading = true ∧
      Effect.spawnWorker ∈ (fetch_data_thread u).2 := by
    simp [fetch_data_thread, hu, show_loading]
  have haccept : Effect.spawnWorker ∈
      (fetch_data_thread
        (applySched (run_async s r).1 (run_async s r).2 now).1).2 := by
    simp [fetch_data_thread, hsched, show_loading]
  exact ⟨hrun, hsched _ _, hupd s d, rfl, hfetch.1, hfetch.2, haccept, hproc⟩

/-- Witness for `busy_flag_cleared_on_all_paths`: the fault outcome
`"timeout"` against the initial states. -/
theorem busy_flag_cleared_on_all_paths_witness :
    (run_async initExApp (Except.error "timeout")).1.is_loading = false ∧
    (applySched (run_async initExApp (Except.error "timeout")).1
      (run_async initExApp (Except.error "timeout")).2 0).1.is_loading = false ∧
    (update_ui_with_data initExApp none 0).1.is_loading = false ∧
    (show_error initExApp "e").1.is_loading = false ∧
    (fetch_data_thread initExApp).1.is_loading = true ∧
    Effect.spawnWorker ∈ (fetch_data_thread initExApp).2 ∧
    Effect.spawnWorker ∈
      (fetch_data_thread
        (applySched (run_async initExApp (Except.error "timeout")).1
          (run_async initExApp (Except.error "timeout")).2 0).1).2 ∧
    (processOutcome "t" initStockApp
      (run_crawler_in_thread (Except.error "timeout"))).1.is_updating = false :=
  busy_flag_cleared_on_all_paths initExApp (Except.error "timeout") 0 none "e"
    initExApp (by decide) initStockApp (Except.error "timeout") "t"

/-- One step of the exchange-rate system preserves the mutual-exclusion
invariant: at most one worker live, and a live worker implies the busy
flag is set. -/
lemma exStep_inv (s : ExSys) (e : FetchEv) (h : exInv s) : exInv (exStep s e) := by
  obtain ⟨h1, h2⟩ := h
  cases e with
  | refresh =>
    by_cases hl : s.app.is_loading = true
    · have hstep : exStep s FetchEv.refresh = { app := s.app, inFlight := s.inFlight } := by
        simp [exStep, fetch_data_thread, hl]
      rw [hstep]
      exact ⟨h1, h2⟩
    · have h0 : s.inFlight = 0 := by
        cases Nat.lt_or_ge s.inFlight 1 with
        | inl hlt => omega
        | inr hge => exact absurd (h2 (Nat.le_antisymm h1 hge)) hl
      have hstep : exStep s FetchEv.refresh =
          { app := show_loading { s.app with is_loading := true },
            inFlight := s.inFlight + 1 } := by
        simp [exStep, fetch_data_thread, hl]
      rw [hstep]
      refine ⟨show s.inFlight + 1 ≤ 1 by omega, fun _ => ?_⟩
      simp [show_loading]
  | finished r now =>
    by_cases h0 : s.inFlight = 0
    · have hstep : exStep s (FetchEv.finished r now) = s := by simp [exStep, h0]
      rw [hstep]
      exact ⟨h1, h2⟩
    · have hstep : exStep s (FetchEv.finished r now) =
          { app := (applySched (run_async s.app r).1 (run_async s.app r).2 now).1,
            inFlight := s.inFlight - 1 } := by
        simp [exStep, h0]
      rw [hstep]
      exact ⟨show s.inFlight - 1 ≤ 1 by omega,
        fun hf => absurd hf (show ¬ (s.inFlight - 1 = 1) by omega)⟩

/-- The mutual-exclusion invariant holds along every event trace. -/
lemma runEvents_inv (evs : List FetchEv) (s : ExSys) (h : exInv s) :
    exInv (runEvents s evs) := by
  induction evs generalizing s with
  | nil => exact h
  | cons e rest ih =>
    rw [runEvents, List.foldl_cons]
    exact ih (exStep s e) (exStep_inv s e h)

/-- C1: a refresh request issued while the busy flag is set pops only an
informational dialog, leaves the state unchanged and spawns no second
worker, in both apps; and along every event trace from the initial
exchange-rate system at most one fetch is ever in flight. -/
theorem busy_refresh_rejected (s : ExApp) (h : s.is_loading = true)
    (t : StockApp) (h2 : t.is_updating = true) (h3 : t.watchlist ≠ [])
    (evs : List FetchEv) :
    fetch_data_thread s = (s, [Effect.showInfo "正在載入中，請稍候..."]) ∧
    Effect.spawnWorker ∉ (fetch_data_thread s).2 ∧
    manual_update t = (t, [Effect.showInfo "正在更新中，請稍候..."]) ∧
    Effect.spawnWorker ∉ (manual_update t).2 ∧
    (runEvents initExSys evs).inFlight ≤ 1 := by
  have hf : fetch_data_thread s = (s, [Effect.showInfo "正在載入中，請稍候..."]) := by
    simp [fetch_data_thread, h]
  have ht2 : t.watchlist.isEmpty = false := by
    cases hw : t.watchlist with
    | nil => exact absurd hw h3
    | cons a l => rfl
  have hm : manual_update t = (t, [Effect.showInfo "正在更新中，請稍候..."]) := by
    simp [manual_update, ht2, h2]
  refine ⟨hf, ?_, hm, ?_, ?_⟩
  · rw [hf]
    simp
  · rw [hm]
    simp
  · exact (runEvents_inv evs initExSys
      ⟨show (0 : Nat) ≤ 1 by omega,
       fun hh => absurd hh (show ¬ ((0 : Nat) = 1) by omega)⟩).1

/-- Witness for `busy_refresh_rejected`: busy initial states and the
two-refresh trace (the second refresh is rejected, one worker live). -/
theorem busy_refresh_rejected_witness :
    fetch_data_thread { initExApp with is_loading := true } =
      ({ initExApp with is_loading := true },
       [Effect.showInfo "正在載入中，請稍候..."]) ∧
    Effect.spawnWorker ∉
      (fetch_data_thread { initExApp with is_loading := true }).2 ∧
    manual_update { initStockApp with watchlist := ["2330"], is_updating := true } =
      ({ initStockApp with watchlist := ["2330"], is_updating := true },
       [Effect.showInfo "正在更新中，請稍候..."]) ∧
    Effect.spawnWorker ∉
      (manual_update
        { initStockApp with watchlist := ["2330"], is_updating := true }).2 ∧
    (runEvents initExSys [FetchEv.refresh, FetchEv.refresh]).inFlight ≤ 1 :=
  busy_refresh_rejected { initExApp with is_loading := true } (by decide)
    { initStockApp with watchlist := ["2330"], is_updating := true } (by decide)
    (by decide) [FetchEv.refresh, FetchEv.refresh]
